import Mathlib

/-!
Verification of the Clinical Confidence and Explainability Engine (CCEE)
of the Telivus-AI backend, shallowly embedded from
`backend/app/services/ccee/` (safety_scorer.py, confidence_engine.py,
uncertainty_detector.py, explainability_engine.py).

Numeric values are embedded as rationals; Python strings are embedded as
Lean strings, and the Python string primitives used by the code
(`in`, `lower`, `split`, `replace`, `capitalize`, `strip`, `str()` of a
list) are defined below, structurally recursive on character lists so
that every definition evaluates in the kernel.
-/

namespace CCEE

/-- Apostrophe character, used by the embedding of Python `str()` of a list. -/
def aposChar : Char := Char.ofNat 39

/-- Python `needle in hay` on character lists (substring containment). -/
def pyInL (needle : List Char) : List Char → Bool
| [] => needle.isEmpty
| c :: rest => needle.isPrefixOf (c :: rest) || pyInL needle rest

/-- Python `needle in hay` for strings. -/
def pyIn (needle hay : String) : Bool := pyInL needle.data hay.data

/-- Python `s.lower()` (ASCII case folding, as used by the source). -/
def lowerS (s : String) : String := String.mk (s.data.map Char.toLower)

/-- One step of Python `s.split()`: accumulate a word, break on whitespace,
dropping empty words. -/
def pySplitGo : List Char → List Char → List (List Char)
| [], acc => if acc.isEmpty then [] else [acc.reverse]
| c :: rest, acc =>
  if c.isWhitespace then
    (if acc.isEmpty then pySplitGo rest [] else acc.reverse :: pySplitGo rest [])
  else pySplitGo rest (c :: acc)

/-- Python `s.split()`: split on whitespace runs, discarding empties. -/
def pySplitWS (s : String) : List String :=
  (pySplitGo s.data []).map String.mk

/-- Fuel-indexed replacement of every occurrence of `pat` by `rep`
(left to right, non-overlapping), the semantics of Python `str.replace`
for a non-empty pattern.  The fuel is the length of the haystack. -/
def replaceFuel (pat rep : List Char) : Nat → List Char → List Char
| _, [] => []
| 0, hay => hay
| n + 1, c :: rest =>
  if !pat.isEmpty && pat.isPrefixOf (c :: rest) then
    rep ++ replaceFuel pat rep n ((c :: rest).drop pat.length)
  else
    c :: replaceFuel pat rep n rest

/-- Python `s.replace(pat, rep)` (for the non-empty patterns the source uses). -/
def pyReplace (s pat rep : String) : String :=
  String.mk (replaceFuel pat.data rep.data s.data.length s.data)

/-- Python `w.capitalize()`: first character upper-cased, rest lower-cased. -/
def pyCapitalize (w : String) : String :=
  match w.data with
  | [] => ""
  | c :: cs => String.mk (c.toUpper :: cs.map Char.toLower)

/-- Python `s.strip()`: drop leading and trailing whitespace. -/
def pyStrip (s : String) : String :=
  String.mk (((s.data.dropWhile Char.isWhitespace).reverse.dropWhile Char.isWhitespace).reverse)

/-- Python `str(xs)` for a list of strings (repr of each element between
single quotes, comma separated, in square brackets).  Quote escaping is
not modelled; no string the proofs evaluate contains a quote. -/
def pyStrListL (xs : List String) : List Char :=
  '[' :: (List.intercalate [',', ' '] (xs.map (fun s => aposChar :: s.data ++ [aposChar]))) ++ [']']

/-- Lower-case a character list (Python `.lower()` applied to `str(xs)`). -/
def lowerL (cs : List Char) : List Char := cs.map Char.toLower

/-! ## Data model (backend/app/models/health.py)

Only the fields the CCEE components read are embedded.  The pydantic
model types them: `symptoms : List[str]` (min one item),
`severity : Optional[Dict[str, int]]`, `duration : Optional[Dict[str, str]]`,
`age : int` (0 to 130), `gender : Optional[Gender]`, the three history
fields `Optional[List[str]]`, and `additional_context : Optional[str]`. -/

structure SymptomAssessment where
  symptoms : List String
  severity : Option (List (String × Int))
  duration : Option (List (String × String))
deriving DecidableEq, Repr

structure PatientInfo where
  age : Nat
  gender : Option String
deriving DecidableEq, Repr

structure MedicalHistory where
  past_medical_conditions : Option (List String)
  current_medications : Option (List String)
  allergies : Option (List String)
deriving DecidableEq, Repr

structure HealthAssessmentRequest where
  symptom_assessment : SymptomAssessment
  patient_info : PatientInfo
  medical_history : Option MedicalHistory
  additional_context : Option String
deriving DecidableEq, Repr

/-! ## SafetyScorer (safety_scorer.py) -/

inductive SafetyLevel where
  | green
  | amber
  | red
deriving DecidableEq, Repr

structure SafetyResult where
  safety_level : SafetyLevel
  safety_notes : String
  triggered_rules : List String
  requires_immediate_care : Bool
deriving DecidableEq, Repr

/-- `SafetyScorer.EMERGENCY_SYMPTOMS`. -/
def EMERGENCY_SYMPTOMS : List String :=
  ["chest pain", "severe chest pain", "crushing chest pain",
   "difficulty breathing", "shortness of breath", "can\x27t breathe", "cannot breathe",
   "severe bleeding", "heavy bleeding", "bleeding won\x27t stop",
   "unconscious", "unconsciousness", "passed out", "fainting",
   "severe headache", "worst headache", "thunderclap headache",
   "confusion", "disoriented", "altered mental status",
   "stroke symptoms", "face drooping", "arm weakness", "speech difficulty",
   "severe abdominal pain", "severe stomach pain",
   "seizure", "convulsion",
   "suicidal thoughts", "wanting to harm self"]

/-- `SafetyScorer._check_emergency_symptoms`. -/
def check_emergency_symptoms (symptoms : List String) : Bool :=
  (symptoms.map lowerS).any (fun symptom =>
    EMERGENCY_SYMPTOMS.any (fun emergency => pyIn emergency symptom))

/-- Infant-concern lexicon inlined in `_check_high_risk_age_group`. -/
def concerning_infant_symptoms : List String :=
  ["fever", "vomiting", "diarrhea", "not feeding", "lethargic", "rash"]

/-- Elderly-concern lexicon inlined in `_check_high_risk_age_group`. -/
def high_risk_elderly_symptoms : List String :=
  ["fall", "fell", "confusion", "chest", "dizzy", "weakness"]

/-- `SafetyScorer._check_high_risk_age_group`. -/
def check_high_risk_age_group (age : Nat) (symptoms : List String) : Bool :=
  (decide (age < 2) &&
    (symptoms.map lowerS).any (fun symptom =>
      concerning_infant_symptoms.any (fun concern => pyIn concern symptom)))
  ||
  (decide (age > 75) &&
    (symptoms.map lowerS).any (fun symptom =>
      high_risk_elderly_symptoms.any (fun risk => pyIn risk symptom)))

/-- Serious-indicator lexicon inlined in `_has_potentially_serious_symptoms`. -/
def serious_indicators : List String :=
  ["pain", "fever", "bleeding", "swelling", "numbness",
   "vision", "hearing", "balance", "weakness", "severe"]

/-- `SafetyScorer._has_potentially_serious_symptoms`. -/
def has_potentially_serious_symptoms (symptoms : List String) : Bool :=
  (symptoms.map lowerS).any (fun symptom =>
    serious_indicators.any (fun serious => pyIn serious symptom))

/-- Hedging phrases inlined in `_check_conflicting_signals`. -/
def uncertain_phrases : List String :=
  ["unclear", "uncertain", "difficult to determine",
   "may be", "could be", "possibly", "unable to determine",
   "requires further evaluation", "needs more information"]

/-- `SafetyScorer._check_conflicting_signals`. -/
def check_conflicting_signals (assessment : String) (symptoms : List String)
    (confidence : ℚ) : Bool :=
  (decide (confidence ≥ 3/4) &&
    uncertain_phrases.any (fun phrase => pyIn phrase (lowerS assessment)))
  || (decide (symptoms.length ≥ 4) && decide (assessment.length < 100))

/-- Python round-half-even of a rational, the rounding used by the
`.0%` format specifier in the rule labels. -/
def roundHalfEven (q : ℚ) : Int :=
  let f : Int := ⌊q⌋
  if q - f < 1/2 then f
  else if q - f > 1/2 then f + 1
  else if f % 2 = 0 then f else f + 1

/-- The Python format `f"(confidence:.0%)"` used in rule labels. -/
def fmtPercent (c : ℚ) : String := toString (roundHalfEven (c * 100)) ++ "%"

/-- Emergency keywords checked against red flags in rule 2. -/
def red_flag_emergency_words : List String := ["emergency", "immediate", "urgent", "911"]

/-- Rules 4 to 7 of `SafetyScorer.calculate_safety_score`: the
confidence-based tail of the decision chain reached when no symptom,
red-flag or age rule fired. -/
def confidence_rules (symptoms : List String) (assessment : String)
    (confidence : ℚ) : SafetyResult :=
  if confidence < 1/2 then
    if has_potentially_serious_symptoms symptoms then
      { safety_level := .amber
        safety_notes := "⚠️ UNCERTAIN ASSESSMENT: Confidence is low. Professional medical evaluation strongly recommended."
        triggered_rules := ["Low confidence (" ++ fmtPercent confidence ++ ") on assessment"]
        requires_immediate_care := false }
    else
      { safety_level := .amber
        safety_notes := "Assessment confidence is limited. Consider consulting healthcare provider if symptoms persist or worsen."
        triggered_rules := ["Low confidence (" ++ fmtPercent confidence ++ ") on assessment"]
        requires_immediate_care := false }
  else if confidence < 7/10 then
    { safety_level := .amber
      safety_notes := "Moderate confidence assessment. Monitor symptoms and seek care if  condition changes."
      triggered_rules := ["Medium confidence (" ++ fmtPercent confidence ++ ")"]
      requires_immediate_care := false }
  else if check_conflicting_signals assessment symptoms confidence then
    { safety_level := .amber
      safety_notes := "Assessment contains some uncertainty. Recommend clinical evaluation for definitive diagnosis."
      triggered_rules := ["Conflicting signals detected between assessment and symptoms"]
      requires_immediate_care := false }
  else
    { safety_level := .green
      safety_notes := "Assessment based on available information. Always consult healthcare provider for persistent or worsening symptoms."
      triggered_rules := ["High confidence (" ++ fmtPercent confidence ++ "), no emergency symptoms"]
      requires_immediate_care := false }

/-- `SafetyScorer.calculate_safety_score`. -/
def calculate_safety_score (symptoms : List String) (assessment : String)
    (confidence : ℚ) (age : Nat) (red_flags : Option (List String)) : SafetyResult :=
  if check_emergency_symptoms symptoms then
    { safety_level := .red
      safety_notes := "⚠️ EMERGENCY: Symptoms suggest immediate medical attention needed. Call emergency services or go to nearest emergency room."
      triggered_rules := ["Emergency symptoms detected"]
      requires_immediate_care := true }
  else if (red_flags.getD []).any (fun flag =>
      red_flag_emergency_words.any (fun emergency => pyIn emergency (lowerS flag))) then
    { safety_level := .red
      safety_notes := "⚠️ URGENT: Assessment identified concerning symptoms requiring prompt medical evaluation."
      triggered_rules := ["Critical red flags in diagnostic plan"]
      requires_immediate_care := true }
  else if check_high_risk_age_group age symptoms then
    if age < 2 then
      { safety_level := .red
        safety_notes := "⚠️ INFANT EMERGENCY: Any significant symptoms in infants under 2 require immediate pediatric evaluation."
        triggered_rules := ["High-risk age group (age " ++ toString age ++ ") with concerning symptoms"]
        requires_immediate_care := true }
    else
      { safety_level := .amber
        safety_notes := "⚠️ CAUTION: Age-related risk factors present. Recommend prompt medical evaluation."
        triggered_rules := ["High-risk age group (age " ++ toString age ++ ") with concerning symptoms"]
        requires_immediate_care := false }
  else
    confidence_rules symptoms assessment confidence

/-! ## ConfidenceEngine (confidence_engine.py)

`assessment_data` is a Python `Dict[str, Any]`; the embedding keeps the
parts the engine reads: presence of the five required field names, and
the value under `diagnostic_plan` (which `_calculate_agent_agreement`
inspects for a `red_flags` entry of arbitrary runtime type — modelled by
`PyVal`, whose `len()` fails on non-sized values exactly as in Python). -/

inductive PyVal where
  | pnone
  | pbool (b : Bool)
  | pint (n : Int)
  | pstr (s : String)
  | plist (xs : List String)
deriving DecidableEq, Repr

/-- Python truthiness of a `PyVal`. -/
def pyTruthy : PyVal → Bool
| .pnone => false
| .pbool b => b
| .pint n => decide (n ≠ 0)
| .pstr s => !s.isEmpty
| .plist xs => !xs.isEmpty

/-- Python `len()`: raises `TypeError` on values with no length. -/
def pyLen : PyVal → Except Unit Nat
| .pnone => .error ()
| .pbool _ => .error ()
| .pint _ => .error ()
| .pstr s => .ok s.length
| .plist xs => .ok xs.length

/-- The value found under the `diagnostic_plan` key of `assessment_data`:
either not a dict, or a dict with an optional `red_flags` entry. -/
inductive DiagPlanVal where
  | notDict
  | dict (red_flags : Option PyVal)
deriving DecidableEq, Repr

structure AssessmentData where
  has_chief_complaint : Bool
  has_history_present_illness : Bool
  has_assessment : Bool
  has_otc_recommendations : Bool
  diagnostic_plan : Option DiagPlanVal
deriving DecidableEq, Repr

/-- A RAG retrieval hit (a Python dict with the keys the engines read). -/
structure RagMeta where
  similarity : Option ℚ
  confidence : Option ℚ
  topic : Option String
  source : Option String
  title : Option String
deriving DecidableEq, Repr

structure RagHit where
  similarity : Option ℚ
  score : Option ℚ
  metadata : Option RagMeta
  topic : Option String
  source : Option String
  content : Option String
  text : Option String
deriving DecidableEq, Repr

structure ConfidenceBreakdownData where
  data_completeness : ℚ
  symptom_signal_strength : ℚ
  rag_relevance : ℚ
  agent_agreement : ℚ
  model_consistency : ℚ
  overall_score : ℚ
  level : String
deriving DecidableEq, Repr

/-- Python truthiness of an `Optional[List[str]]` field. -/
def truthyStrList : Option (List String) → Bool
| none => false
| some xs => !xs.isEmpty

/-- The medical-history condition of `_calculate_data_completeness`
(lines 150 to 155): the request has a history object and at least one of
the three fields is truthy. -/
def history_bonus_condition : Option MedicalHistory → Bool
| none => false
| some h =>
  truthyStrList h.past_medical_conditions ||
  truthyStrList h.current_medications ||
  truthyStrList h.allergies

/-- `ConfidenceEngine._calculate_data_completeness`. -/
def calculate_data_completeness (request : HealthAssessmentRequest) : ℚ :=
  let score : ℚ :=
    1/5
    + (if request.patient_info.gender.isSome then 1/10 else 0)
    + (if history_bonus_condition request.medical_history then 3/10 else 0)
    + (if (request.symptom_assessment.severity.getD []).length > 0 then 1/5 else 0)
    + (if (request.symptom_assessment.duration.getD []).length > 0 then 1/5 else 0)
  min score 1

/-- `ConfidenceEngine._calculate_symptom_signal_strength`. -/
def calculate_symptom_signal_strength (symptoms : List String)
    (severity : Option (List (String × Int)))
    (duration : Option (List (String × String))) : ℚ :=
  if symptoms.isEmpty then 0
  else
    let symptom_count_score : ℚ := 3/10 * min ((symptoms.length : ℚ) / 5) 1
    let severity_score : ℚ :=
      match severity with
      | some l =>
        if l.length > 0 then
          let avg_severity : ℚ := ((l.map (fun p => p.2)).sum : Int) / (l.length : ℚ)
          4/10 * (avg_severity / 10)
        else 4/10 * (1/2)
      | none => 4/10 * (1/2)
    let duration_score : ℚ :=
      match duration with
      | some l => if l.length > 0 then 3/10 * 1 else 3/10 * (1/2)
      | none => 3/10 * (1/2)
    min (symptom_count_score + severity_score + duration_score) 1

/-- The similarity value `_calculate_rag_relevance` extracts from one hit:
`similarity`, then `score`, then `metadata.similarity`, then
`metadata.confidence`. -/
def extract_similarity (h : RagHit) : Option ℚ :=
  match h.similarity with
  | some v => some v
  | none =>
    match h.score with
    | some v => some v
    | none =>
      match h.metadata with
      | some m =>
        (match m.similarity with
         | some v => some v
         | none => m.confidence)
      | none => none

/-- `ConfidenceEngine._calculate_rag_relevance`. -/
def calculate_rag_relevance (rag_results : Option (List RagHit)) : ℚ :=
  match rag_results with
  | none => 1/2
  | some l =>
    if l.isEmpty then 1/2
    else
      let similarities := (l.take 3).filterMap extract_similarity
      if similarities.isEmpty then 13/20
      else min (similarities.sum / (similarities.length : ℚ)) 1

/-- `ConfidenceEngine._calculate_agent_agreement`.  The only fallible
spot is Python `len(red_flags)` on a non-sized value. -/
def calculate_agent_agreement (assessment_data : AssessmentData)
    (emergency_check : Option (List (String × String))) : Except Unit ℚ :=
  if (match emergency_check with | none => true | some l => l.isEmpty) then
    .ok (7/10)
  else
    let emergency_level :=
      ((emergency_check.getD []).lookup "urgency_level").getD "routine"
    let red_flags : PyVal :=
      match assessment_data.diagnostic_plan with
      | some (.dict (some v)) => v
      | some (.dict none) => .plist []
      | _ => .plist []
    if emergency_level == "emergency" then
      if pyTruthy red_flags then
        match pyLen red_flags with
        | .error e => .error e
        | .ok n => .ok (if n > 0 then 1 else 3/10)
      else .ok (3/10)
    else if emergency_level == "routine" then
      if !pyTruthy red_flags then .ok 1
      else
        match pyLen red_flags with
        | .error e => .error e
        | .ok n => .ok (if n = 0 then 1 else if n ≤ 2 then 7/10 else 1/2)
    else .ok (7/10)

/-- `ConfidenceEngine._calculate_model_consistency`. -/
def calculate_model_consistency (assessment_data : AssessmentData) : ℚ :=
  let present_fields : Nat :=
    (if assessment_data.has_chief_complaint then 1 else 0)
    + (if assessment_data.has_history_present_illness then 1 else 0)
    + (if assessment_data.has_assessment then 1 else 0)
    + (if assessment_data.diagnostic_plan.isSome then 1 else 0)
    + (if assessment_data.has_otc_recommendations then 1 else 0)
  if present_fields = 5 then 1
  else if present_fields ≥ 4 then 9/10
  else if present_fields ≥ 3 then 7/10
  else 3/5

/-- The level thresholds of `calculate_confidence_score` (lines 87 to 93). -/
def confidence_level_of (overall_score : ℚ) : String :=
  if overall_score ≥ 8/10 then "high"
  else if overall_score ≥ 6/10 then "medium"
  else "low"

/-- The body of the `try` block of
`ConfidenceEngine.calculate_confidence_score`. -/
def confidence_body (request : HealthAssessmentRequest)
    (assessment_data : AssessmentData) (rag_results : Option (List RagHit))
    (emergency_check : Option (List (String × String))) :
    Except Unit ConfidenceBreakdownData :=
  let data_completeness := calculate_data_completeness request
  let symptom_signal := calculate_symptom_signal_strength
    request.symptom_assessment.symptoms
    request.symptom_assessment.severity
    request.symptom_assessment.duration
  let rag_relevance := calculate_rag_relevance rag_results
  match calculate_agent_agreement assessment_data emergency_check with
  | .error e => .error e
  | .ok agent_agreement =>
    let model_consistency := calculate_model_consistency assessment_data
    let overall_score : ℚ :=
      3/10 * data_completeness + 25/100 * symptom_signal
      + 25/100 * rag_relevance + 1/10 * agent_agreement
      + 1/10 * model_consistency
    .ok
      { data_completeness := data_completeness
        symptom_signal_strength := symptom_signal
        rag_relevance := rag_relevance
        agent_agreement := agent_agreement
        model_consistency := model_consistency
        overall_score := overall_score
        level := confidence_level_of overall_score }

/-- The fallback breakdown of the `except` branch. -/
def fallback_breakdown : ConfidenceBreakdownData :=
  { data_completeness := 1/2
    symptom_signal_strength := 1/2
    rag_relevance := 1/2
    agent_agreement := 1/2
    model_consistency := 1/2
    overall_score := 1/2
    level := "medium" }

/-- `ConfidenceEngine.calculate_confidence_score`: the `try` body with
the conservative-fallback `except` handler. -/
def calculate_confidence_score (request : HealthAssessmentRequest)
    (assessment_data : AssessmentData) (rag_results : Option (List RagHit))
    (emergency_check : Option (List (String × String))) :
    ConfidenceBreakdownData :=
  match confidence_body request assessment_data rag_results emergency_check with
  | .ok b => b
  | .error _ => fallback_breakdown

/-! ## UncertaintyDetector (uncertainty_detector.py) -/

structure UncertaintyFactor where
  category : String
  description : String
  impact : String
  suggestion : String
deriving DecidableEq, Repr

/-- The literal list `['none', '[]', 'no', 'n/a']` of
`_has_meaningful_history`. -/
def banned_history_strings : List (List Char) :=
  ["none".data, "[]".data, "no".data, "n/a".data]

/-- One field of the `_has_meaningful_history` check: the field is truthy,
has positive length, and its Python `str()` lower-cased is not one of the
banned literals. -/
def field_meaningful (f : Option (List String)) : Bool :=
  match f with
  | none => false
  | some xs => !xs.isEmpty && !(banned_history_strings.contains (lowerL (pyStrListL xs)))

/-- `UncertaintyDetector._has_meaningful_history` (with the leading
`if not history: return False` guard). -/
def has_meaningful_history : Option MedicalHistory → Bool
| none => false
| some h =>
  field_meaningful h.past_medical_conditions ||
  field_meaningful h.current_medications ||
  field_meaningful h.allergies

/-- `UncertaintyDetector._check_missing_data`. -/
def check_missing_data (request : HealthAssessmentRequest) : List UncertaintyFactor :=
  (if !has_meaningful_history request.medical_history then
    [{ category := "missing_data"
       description := "No medical history provided"
       impact := "Reduces confidence by approximately 15-30%"
       suggestion := "Provide past medical conditions, medications, and known allergies for better context" }]
  else [])
  ++
  (if request.patient_info.gender.isNone then
    [{ category := "missing_data"
       description := "Gender not specified"
       impact := "Reduces confidence by approximately 5-10%"
       suggestion := "Provide gender for more accurate assessment of gender-specific conditions" }]
  else [])
  ++
  (if (match request.additional_context with
       | none => true
       | some s => s.isEmpty || decide ((pyStrip s).length < 10)) then
    [{ category := "missing_data"
       description := "Limited additional context"
       impact := "May reduce confidence by 5-15% depending on symptoms"
       suggestion := "Share relevant details like recent activities, known exposures, or symptom patterns" }]
  else [])

/-- Vague-symptom lexicon inlined in `_check_vague_symptoms`. -/
def vague_symptoms_lexicon : List String :=
  ["tired", "fatigue", "unwell", "sick", "not feeling good", "off"]

/-- `UncertaintyDetector._check_vague_symptoms`. -/
def check_vague_symptoms (request : HealthAssessmentRequest) : List UncertaintyFactor :=
  let symptoms := request.symptom_assessment.symptoms
  let vague_count : Nat :=
    symptoms.countP (fun s => vague_symptoms_lexicon.any (fun vague => pyIn vague (lowerS s)))
  (if vague_count > 0 && symptoms.length ≤ 2 then
    [{ category := "vague_symptoms"
       description := "Symptoms are non-specific"
       impact := "Reduces confidence by approximately " ++ toString (min (vague_count * 10) 20) ++ "%"
       suggestion := "Describe specific symptoms (e.g., instead of \x27tired\x27, describe \x27extreme exhaustion after minimal activity\x27)" }]
  else [])
  ++
  (if symptoms.length = 1 then
    [{ category := "vague_symptoms"
       description := "Only one symptom reported"
       impact := "Reduces confidence by approximately 10-15%"
       suggestion := "Report all associated symptoms, even if minor, for complete picture" }]
  else [])

/-- `UncertaintyDetector._check_symptom_details`. -/
def check_symptom_details (request : HealthAssessmentRequest) : List UncertaintyFactor :=
  let symptoms := request.symptom_assessment.symptoms
  let severity := request.symptom_assessment.severity.getD []
  let duration := request.symptom_assessment.duration.getD []
  (if severity.isEmpty then
    [{ category := "missing_data"
       description := "No symptom severity ratings provided"
       impact := "Reduces confidence by approximately 10-20%"
       suggestion := "Rate each symptom\x27s severity on a scale of 1-10 to help prioritize concerns" }]
  else if severity.length < symptoms.length then
    [{ category := "missing_data"
       description := toString (symptoms.length - severity.length) ++ " symptom(s) lack severity rating"
       impact := "Reduces confidence by approximately " ++ toString (min ((symptoms.length - severity.length) * 5) 15) ++ "%"
       suggestion := "Provide severity ratings for all symptoms" }]
  else [])
  ++
  (if duration.isEmpty then
    [{ category := "missing_data"
       description := "No symptom duration information"
       impact := "Reduces confidence by approximately 10-20%"
       suggestion := "Specify how long each symptom has been present (acute vs. chronic matters)" }]
  else if duration.length < symptoms.length then
    [{ category := "missing_data"
       description := toString (symptoms.length - duration.length) ++ " symptom(s) lack duration information"
       impact := "Reduces confidence by approximately " ++ toString (min ((symptoms.length - duration.length) * 5) 15) ++ "%"
       suggestion := "Provide duration for all symptoms" }]
  else [])

/-- `UncertaintyDetector.detect_uncertainty_factors` (the
`confidence_breakdown` argument is accepted and, as in the source, unused). -/
def detect_uncertainty_factors (request : HealthAssessmentRequest)
    (confidence_breakdown : ConfidenceBreakdownData) : List UncertaintyFactor :=
  check_missing_data request ++ check_vague_symptoms request ++ check_symptom_details request

/-! ## ExplainabilityEngine (explainability_engine.py) -/

structure EvidenceItem where
  symptom : String
  supporting_sources : List String
  confidence_contribution : ℚ
deriving DecidableEq, Repr

/-- `ExplainabilityEngine._clean_source_name`. -/
def clean_source_name (source : String) : String :=
  let s1 := pyReplace (pyReplace (pyReplace source ".pdf" "") ".txt" "") ".md" ""
  let s2 := pyReplace (pyReplace s1 "_" " ") "-" " "
  String.intercalate " " ((pySplitWS s2).map pyCapitalize)

/-- The source label `_extract_rag_sources` takes from one hit:
metadata topic, then metadata source, then metadata title; with no
metadata dict, top-level topic then top-level source. -/
def hit_source (h : RagHit) : Option String :=
  match h.metadata with
  | some m =>
    match m.topic with
    | some t => some (clean_source_name t)
    | none =>
      match m.source with
      | some s => some (clean_source_name s)
      | none =>
        match m.title with
        | some t => some (clean_source_name t)
        | none => none
  | none =>
    match h.topic with
    | some t => some (clean_source_name t)
    | none =>
      match h.source with
      | some s => some (clean_source_name s)
      | none => none

/-- `ExplainabilityEngine._extract_rag_sources`. -/
def extract_rag_sources (rag_results : List RagHit) : List String :=
  (rag_results.filterMap hit_source).take 10

/-- The content text `_find_relevant_sources` reads from one hit. -/
def hit_content (h : RagHit) : String :=
  match h.content with
  | some c => lowerS c
  | none =>
    match h.text with
    | some t => lowerS t
    | none => ""

/-- The loop of `_find_relevant_sources`: walk the results with their
index against the (separately compacted) source list, stop at the end of
the source list or once three sources were collected. -/
def find_relevant_loop (symptom_lower : String) (sources : List String) :
    List RagHit → Nat → List String → List String
| [], _, relevant => relevant
| h :: rest, i, relevant =>
  if i ≥ sources.length then relevant
  else
    let content := hit_content h
    let matched := pyIn symptom_lower content ||
      (pySplitWS symptom_lower).any (fun word => pyIn word content)
    let relevant' :=
      if matched && !relevant.contains (sources.getD i "") then
        relevant ++ [sources.getD i ""]
      else relevant
    if relevant'.length ≥ 3 then relevant'
    else find_relevant_loop symptom_lower sources rest (i + 1) relevant'

/-- `ExplainabilityEngine._find_relevant_sources`. -/
def find_relevant_sources (symptom : String) (sources : List String)
    (rag_results : List RagHit) : List String :=
  let relevant := find_relevant_loop (lowerS symptom) sources rag_results 0 []
  if relevant.isEmpty && !sources.isEmpty then sources.take 2 else relevant

/-- `ExplainabilityEngine.generate_evidence_map`. -/
def generate_evidence_map (symptoms : List String) (rag_results : List RagHit)
    (assessment : String) : List EvidenceItem :=
  if rag_results.isEmpty then
    (symptoms.take 5).map (fun symptom =>
      { symptom := symptom
        supporting_sources := ["General medical knowledge"]
        confidence_contribution :=
          if symptoms.length > 0 then 1 / (symptoms.length : ℚ) else 0 })
  else
    let sources := extract_rag_sources rag_results
    (symptoms.take 5).map (fun symptom =>
      let relevant_sources := find_relevant_sources symptom sources rag_results
      { symptom := symptom
        supporting_sources :=
          if relevant_sources.isEmpty then ["General medical knowledge"]
          else relevant_sources
        confidence_contribution :=
          if symptoms.length > 0 then 1 / (symptoms.length : ℚ) else 0 })


/-- `List.intercalate` of a non-empty list of chunks starts with the first
chunk. -/
theorem intercalate_cons_exists {α : Type} (sep a : List α) (l : List (List α)) :
    ∃ t, List.intercalate sep (a :: l) = a ++ t := by
  cases l with
  | nil => exact ⟨[], by simp [List.intercalate, List.intersperse]⟩
  | cons b l' =>
    refine ⟨sep ++ (List.intersperse sep (b :: l')).flatten, ?_⟩
    simp [List.intercalate, List.intersperse_cons_cons, List.flatten]

/-- The lower-cased Python `str()` of a non-empty string list starts with
a bracket and a quote, so it is never one of the banned history literals. -/
theorem banned_not_contains (x : String) (xs : List String) :
    banned_history_strings.contains (lowerL (pyStrListL (x :: xs))) = false := by
  obtain ⟨t, ht⟩ := intercalate_cons_exists [',', ' '] (aposChar :: x.data ++ [aposChar])
    (xs.map (fun s => aposChar :: s.data ++ [aposChar]))
  have hshape : lowerL (pyStrListL (x :: xs)) =
      '[' :: aposChar :: lowerL (x.data ++ [aposChar] ++ t ++ [']']) := by
    have h1 : aposChar.toLower = aposChar := by decide
    have h2 : Char.toLower '[' = '[' := by decide
    unfold pyStrListL lowerL
    rw [List.map_cons, ht]
    simp [List.map_append, h1, h2]
  have h3 : aposChar ≠ ']' := by decide
  rw [hshape]
  simp [banned_history_strings, List.contains_cons, h3]

/-! ## Theorems -/

/-- C1: a symptom containing "chest pain" (case-insensitively) forces the
emergency-symptom rule: safety level RED and immediate care required, for
every confidence, age, assessment text and red-flag list. -/
theorem c1_chest_pain_forces_red (symptoms : List String) (assessment : String)
    (confidence : ℚ) (age : Nat) (red_flags : Option (List String))
    (h : ∃ s ∈ symptoms, pyIn "chest pain" (lowerS s) = true) :
    (calculate_safety_score symptoms assessment confidence age red_flags).safety_level
      = SafetyLevel.red ∧
    (calculate_safety_score symptoms assessment confidence age red_flags).requires_immediate_care
      = true := by
  obtain ⟨s, hs, hsub⟩ := h
  have hmem : "chest pain" ∈ EMERGENCY_SYMPTOMS := by decide
  have hem : check_emergency_symptoms symptoms = true := by
    unfold check_emergency_symptoms
    rw [List.any_eq_true]
    refine ⟨lowerS s, List.mem_map_of_mem _ hs, ?_⟩
    rw [List.any_eq_true]
    exact ⟨"chest pain", hmem, hsub⟩
  simp [calculate_safety_score, hem]

/-- Witness for C1 at the concrete input of the spec scenario. -/
theorem c1_chest_pain_forces_red_witness :
    (calculate_safety_score ["severe chest pain", "confusion"] "x" (9/10) 40 none).safety_level
      = SafetyLevel.red ∧
    (calculate_safety_score ["severe chest pain", "confusion"] "x" (9/10) 40 none).requires_immediate_care
      = true :=
  c1_chest_pain_forces_red ["severe chest pain", "confusion"] "x" (9/10) 40 none
    ⟨"severe chest pain", by decide, by decide⟩

/-- C2: for every input, the returned `triggered_rules` list has exactly
one element — the first matching rule (or the GREEN default) is the only
one reported. -/
theorem c2_exactly_one_triggered_rule (symptoms : List String) (assessment : String)
    (confidence : ℚ) (age : Nat) (red_flags : Option (List String)) :
    (calculate_safety_score symptoms assessment confidence age red_flags).triggered_rules.length
      = 1 := by
  unfold calculate_safety_score confidence_rules
  split_ifs <;> rfl

/-- C6: with no earlier rule firing, age 1 with symptom "fever" is RED with
immediate care; age 76 with symptom "dizzy" is AMBER without immediate
care; age 30 with symptom "dizzy" triggers neither age rule and the
result is exactly that of the confidence-based rules 4 to 7. -/
theorem c6_age_boundary_rules (assessment : String) (confidence : ℚ) :
    ((calculate_safety_score ["fever"] assessment confidence 1 none).safety_level
        = SafetyLevel.red ∧
     (calculate_safety_score ["fever"] assessment confidence 1 none).requires_immediate_care
        = true) ∧
    ((calculate_safety_score ["dizzy"] assessment confidence 76 none).safety_level
        = SafetyLevel.amber ∧
     (calculate_safety_score ["dizzy"] assessment confidence 76 none).requires_immediate_care
        = false) ∧
    calculate_safety_score ["dizzy"] assessment confidence 30 none
      = confidence_rules ["dizzy"] assessment confidence := by
  have hf : check_emergency_symptoms ["fever"] = false := by decide
  have hd : check_emergency_symptoms ["dizzy"] = false := by decide
  have hf1 : check_high_risk_age_group 1 ["fever"] = true := by decide
  have hd76 : check_high_risk_age_group 76 ["dizzy"] = true := by decide
  have hd30 : check_high_risk_age_group 30 ["dizzy"] = false := by decide
  refine ⟨?_, ?_, ?_⟩ <;>
    simp [calculate_safety_score, hf, hd, hf1, hd76, hd30]

/-- C10: every uncertainty factor produced by `detect_uncertainty_factors`
has category "missing_data" or "vague_symptoms"; the declared category
"conflicting_info" is never emitted. -/
theorem c10_uncertainty_categories (request : HealthAssessmentRequest)
    (breakdown : ConfidenceBreakdownData) :
    (detect_uncertainty_factors request breakdown).all
      (fun f => f.category == "missing_data" || f.category == "vague_symptoms") = true := by
  unfold detect_uncertainty_factors check_missing_data check_vague_symptoms check_symptom_details
  dsimp only
  split_ifs <;> rfl


/-- For the typed `Optional[List[str]]` history fields, Python truthiness
coincides with the banned-literal check of `_has_meaningful_history`. -/
theorem truthy_eq_field_meaningful (f : Option (List String)) :
    truthyStrList f = field_meaningful f := by
  match f with
  | none => rfl
  | some [] => rfl
  | some (x :: xs) =>
    show (!(x :: xs).isEmpty)
      = (!(x :: xs).isEmpty && !banned_history_strings.contains (lowerL (pyStrListL (x :: xs))))
    rw [banned_not_contains x xs]
    rfl

/-- C3: the data-completeness history bonus fires exactly when
`_has_meaningful_history` holds; a request whose history fields are all
absent (each stringifies to "none") gets no bonus. -/
theorem c3_history_bonus_iff_meaningful :
    (∀ h : Option MedicalHistory, history_bonus_condition h = has_meaningful_history h) ∧
    calculate_data_completeness
      { symptom_assessment := { symptoms := ["headache"], severity := none, duration := none }
        patient_info := { age := 30, gender := none }
        medical_history := some
          { past_medical_conditions := none, current_medications := none, allergies := none }
        additional_context := none } = 1/5 := by
  constructor
  · intro h
    cases h with
    | none => rfl
    | some hh =>
      show (truthyStrList hh.past_medical_conditions || truthyStrList hh.current_medications
          || truthyStrList hh.allergies)
        = (field_meaningful hh.past_medical_conditions || field_meaningful hh.current_medications
          || field_meaningful hh.allergies)
      rw [truthy_eq_field_meaningful, truthy_eq_field_meaningful, truthy_eq_field_meaningful]
  · norm_num [calculate_data_completeness, history_bonus_condition, truthyStrList, min_def]


/-- With an empty source-label list, the relevant-source loop returns its
accumulator unchanged. -/
theorem find_relevant_loop_nil_sources (s : String) (l : List RagHit) (i : Nat)
    (acc : List String) : find_relevant_loop s [] l i acc = acc := by
  cases l <;> simp [find_relevant_loop]

/-- With an empty source-label list, `_find_relevant_sources` returns no
sources. -/
theorem find_relevant_sources_nil (symptom : String) (rag : List RagHit) :
    find_relevant_sources symptom [] rag = [] := by
  unfold find_relevant_sources
  rw [find_relevant_loop_nil_sources]
  rfl

/-- C9: six symptoms with no retrieval results give exactly the first five
symptoms as evidence items, each with the generic source and contribution
one sixth; and the evidence list never exceeds five items. -/
theorem c9_evidence_cap :
    (∀ (symptoms : List String) (assessment : String), symptoms.length = 6 →
      generate_evidence_map symptoms [] assessment =
        (symptoms.take 5).map (fun s =>
          { symptom := s
            supporting_sources := ["General medical knowledge"]
            confidence_contribution := 1/6 }) ∧
      (generate_evidence_map symptoms [] assessment).length = 5) ∧
    (∀ (symptoms : List String) (rag_results : List RagHit) (assessment : String),
      (generate_evidence_map symptoms rag_results assessment).length ≤ 5) := by
  constructor
  · intro symptoms assessment h6
    have hmap : generate_evidence_map symptoms [] assessment =
        (symptoms.take 5).map (fun s =>
          { symptom := s
            supporting_sources := ["General medical knowledge"]
            confidence_contribution := 1/6 }) := by
      unfold generate_evidence_map
      simp [h6]
    refine ⟨hmap, ?_⟩
    rw [hmap]
    simp [List.length_take, h6]
  · intro symptoms rag_results assessment
    unfold generate_evidence_map
    split_ifs <;> simp [List.length_take]

/-- C7 counterexample: one retrieval hit whose content text does not match
the symptom in any way, yet the evidence item carries the extracted source
label, not the generic fallback. -/
theorem c7_counterexample :
    ((generate_evidence_map ["headache"]
      [⟨none, none, some ⟨none, none, some "heart_health", none, none⟩,
        none, none, some "cardiac info", none⟩]
      "x").map (fun item => item.supporting_sources) = [["Heart Health"]]) ∧
    pyIn (lowerS "headache") (lowerS "cardiac info") = false ∧
    ((pySplitWS (lowerS "headache")).any
      (fun word => pyIn word (lowerS "cardiac info"))) = false := by
  refine ⟨?_, by decide, by decide⟩
  decide

/-- C7 as amended: the generic fallback label is returned exactly when
there are no retrieval results or no source label could be extracted from
them. -/
theorem c7_generic_fallback (symptoms : List String) (rag_results : List RagHit)
    (assessment : String)
    (h : rag_results = [] ∨ extract_rag_sources rag_results = []) :
    ∀ item ∈ generate_evidence_map symptoms rag_results assessment,
      item.supporting_sources = ["General medical knowledge"] := by
  intro item hitem
  rcases h with rfl | hsrc
  · unfold generate_evidence_map at hitem
    rw [if_pos (show ([] : List RagHit).isEmpty = true from rfl)] at hitem
    rw [List.mem_map] at hitem
    obtain ⟨s, hs, rfl⟩ := hitem
    rfl
  · unfold generate_evidence_map at hitem
    by_cases hempty : rag_results.isEmpty
    · rw [if_pos hempty] at hitem
      rw [List.mem_map] at hitem
      obtain ⟨s, hs, rfl⟩ := hitem
      rfl
    · rw [if_neg hempty] at hitem
      rw [List.mem_map] at hitem
      obtain ⟨s, hs, rfl⟩ := hitem
      dsimp only
      rw [hsrc, find_relevant_sources_nil]
      rfl

/-- C7 witness for the amended statement, at an empty retrieval list. -/
theorem c7_generic_fallback_witness :
    (EvidenceItem.mk "cough" ["General medical knowledge"] 1).supporting_sources
      = ["General medical knowledge"] :=
  c7_generic_fallback ["cough"] [] "x" (Or.inl rfl)
    ⟨"cough", ["General medical knowledge"], 1⟩
    (by
      have hmap : generate_evidence_map ["cough"] [] "x"
          = [⟨"cough", ["General medical knowledge"], 1⟩] := by
        unfold generate_evidence_map
        norm_num
      rw [hmap]
      exact List.mem_singleton.mpr rfl)


/-- The data-completeness score is always in the unit interval. -/
theorem data_completeness_bounds (r : HealthAssessmentRequest) :
    0 ≤ calculate_data_completeness r ∧ calculate_data_completeness r ≤ 1 := by
  unfold calculate_data_completeness
  dsimp only
  refine ⟨le_min ?_ (by norm_num), min_le_right _ _⟩
  split_ifs <;> norm_num

/-- With severity values in the documented 1 to 10 range, the
symptom-signal score is in the unit interval. -/
theorem symptom_signal_bounds (symptoms : List String)
    (severity : Option (List (String × Int)))
    (duration : Option (List (String × String)))
    (hsev : ∀ p ∈ severity.getD [], (1 : Int) ≤ p.2 ∧ p.2 ≤ 10) :
    0 ≤ calculate_symptom_signal_strength symptoms severity duration ∧
    calculate_symptom_signal_strength symptoms severity duration ≤ 1 := by
  unfold calculate_symptom_signal_strength
  split_ifs with hempty
  · exact ⟨le_refl 0, by norm_num⟩
  · dsimp only
    refine ⟨le_min ?_ (by norm_num), min_le_right _ _⟩
    refine add_nonneg (add_nonneg ?_ ?_) ?_
    · exact mul_nonneg (by norm_num) (le_min (by positivity) (by norm_num))
    · rcases severity with _ | l
      · norm_num
      · dsimp only
        split_ifs with hlen
        · refine mul_nonneg (by norm_num)
            (div_nonneg (div_nonneg ?_ (by positivity)) (by norm_num))
          have hsum : (0 : Int) ≤ (l.map (fun p => p.2)).sum := by
            apply List.sum_nonneg
            intro x hx
            rw [List.mem_map] at hx
            obtain ⟨p, hp, rfl⟩ := hx
            have h1 := (hsev p hp).1
            omega
          exact_mod_cast hsum
        · norm_num
    · rcases duration with _ | d
      · norm_num
      · dsimp only
        split_ifs <;> norm_num

/-- With nonnegative extracted relevance values, the RAG-relevance score
is in the unit interval. -/
theorem rag_relevance_bounds (rag_results : Option (List RagHit))
    (hrel : ∀ h ∈ rag_results.getD [], ∀ v, extract_similarity h = some v → 0 ≤ v) :
    0 ≤ calculate_rag_relevance rag_results ∧ calculate_rag_relevance rag_results ≤ 1 := by
  unfold calculate_rag_relevance
  rcases rag_results with _ | l
  · norm_num
  · dsimp only
    split_ifs with h1 h2
    · norm_num
    · norm_num
    · refine ⟨le_min ?_ (by norm_num), min_le_right _ _⟩
      have hpos : ∀ v ∈ (l.take 3).filterMap extract_similarity, (0:ℚ) ≤ v := by
        intro v hv
        rw [List.mem_filterMap] at hv
        obtain ⟨h, hh, hex⟩ := hv
        exact hrel h (List.take_subset 3 l hh) v hex
      exact div_nonneg (List.sum_nonneg hpos) (by positivity)

/-- Every value the agent-agreement computation returns without raising is
in the unit interval. -/
theorem agent_agreement_ok_bounds (assessment_data : AssessmentData)
    (emergency_check : Option (List (String × String))) (q : ℚ)
    (h : calculate_agent_agreement assessment_data emergency_check = .ok q) :
    0 ≤ q ∧ q ≤ 1 := by
  unfold calculate_agent_agreement at h
  dsimp only at h
  repeat' split at h
  all_goals
    first
      | exact (Except.noConfusion h)
      | (injection h with h
         subst h
         norm_num)

/-- The model-consistency score is in the unit interval. -/
theorem model_consistency_bounds (assessment_data : AssessmentData) :
    0 ≤ calculate_model_consistency assessment_data ∧
    calculate_model_consistency assessment_data ≤ 1 := by
  unfold calculate_model_consistency
  dsimp only
  split_ifs <;> norm_num


/-- The `except` branch of `calculate_confidence_score`. -/
theorem calculate_confidence_score_error (request : HealthAssessmentRequest)
    (assessment_data : AssessmentData) (rag_results : Option (List RagHit))
    (emergency_check : Option (List (String × String))) (e : Unit)
    (h : confidence_body request assessment_data rag_results emergency_check = .error e) :
    calculate_confidence_score request assessment_data rag_results emergency_check
      = fallback_breakdown := by
  unfold calculate_confidence_score
  rw [h]

/-- The successful branch of `calculate_confidence_score`. -/
theorem calculate_confidence_score_ok (request : HealthAssessmentRequest)
    (assessment_data : AssessmentData) (rag_results : Option (List RagHit))
    (emergency_check : Option (List (String × String))) (b : ConfidenceBreakdownData)
    (h : confidence_body request assessment_data rag_results emergency_check = .ok b) :
    calculate_confidence_score request assessment_data rag_results emergency_check = b := by
  unfold calculate_confidence_score
  rw [h]

/-- C4 (amended): with severity values in the documented 1 to 10 range and
nonnegative extracted relevance values, every subscore and the overall
score of the returned breakdown lie in the unit interval. -/
theorem c4_breakdown_in_unit_interval (request : HealthAssessmentRequest)
    (assessment_data : AssessmentData) (rag_results : Option (List RagHit))
    (emergency_check : Option (List (String × String)))
    (hsev : ∀ p ∈ request.symptom_assessment.severity.getD [], (1 : Int) ≤ p.2 ∧ p.2 ≤ 10)
    (hrel : ∀ h ∈ rag_results.getD [], ∀ v, extract_similarity h = some v → 0 ≤ v) :
    ∀ b, b = calculate_confidence_score request assessment_data rag_results emergency_check →
      (0 ≤ b.data_completeness ∧ b.data_completeness ≤ 1) ∧
      (0 ≤ b.symptom_signal_strength ∧ b.symptom_signal_strength ≤ 1) ∧
      (0 ≤ b.rag_relevance ∧ b.rag_relevance ≤ 1) ∧
      (0 ≤ b.agent_agreement ∧ b.agent_agreement ≤ 1) ∧
      (0 ≤ b.model_consistency ∧ b.model_consistency ≤ 1) ∧
      (0 ≤ b.overall_score ∧ b.overall_score ≤ 1) := by
  intro b hb
  subst hb
  unfold calculate_confidence_score
  rcases hbody : confidence_body request assessment_data rag_results emergency_check with e | bb
  · norm_num [fallback_breakdown]
  · dsimp only
    unfold confidence_body at hbody
    rcases haa : calculate_agent_agreement assessment_data emergency_check with e | aa
    · rw [haa] at hbody
      exact (Except.noConfusion hbody)
    · rw [haa] at hbody
      dsimp only at hbody
      injection hbody with hbody
      subst hbody
      dsimp only
      obtain ⟨h1, h2⟩ := data_completeness_bounds request
      obtain ⟨h3, h4⟩ := symptom_signal_bounds request.symptom_assessment.symptoms
        request.symptom_assessment.severity request.symptom_assessment.duration hsev
      obtain ⟨h5, h6⟩ := rag_relevance_bounds rag_results hrel
      obtain ⟨h7, h8⟩ := agent_agreement_ok_bounds assessment_data emergency_check aa haa
      obtain ⟨h9, h10⟩ := model_consistency_bounds assessment_data
      refine ⟨⟨h1, h2⟩, ⟨h3, h4⟩, ⟨h5, h6⟩, ⟨h7, h8⟩, ⟨h9, h10⟩, ?_, ?_⟩ <;> linarith

/-- Witness for C4 at a concrete minimal request. -/
theorem c4_breakdown_in_unit_interval_witness :
    0 ≤ (calculate_confidence_score
          ⟨⟨["headache"], none, none⟩, ⟨30, none⟩, none, none⟩
          ⟨false, false, false, false, none⟩ none none).overall_score ∧
    (calculate_confidence_score
          ⟨⟨["headache"], none, none⟩, ⟨30, none⟩, none, none⟩
          ⟨false, false, false, false, none⟩ none none).overall_score ≤ 1 :=
  ((c4_breakdown_in_unit_interval
      ⟨⟨["headache"], none, none⟩, ⟨30, none⟩, none, none⟩
      ⟨false, false, false, false, none⟩ none none
      (by simp) (by simp)) _ rfl).2.2.2.2.2

/-- Evaluation of data completeness at the minimal one-symptom request. -/
theorem dc_headache_eval :
    calculate_data_completeness ⟨⟨["headache"], none, none⟩, ⟨30, none⟩, none, none⟩ = 1/5 := by
  unfold calculate_data_completeness history_bonus_condition
  norm_num [min_def]

/-- Evaluation of symptom-signal strength at one symptom without severity
or duration data. -/
theorem ss_headache_eval :
    calculate_symptom_signal_strength ["headache"] none none = 41/100 := by
  unfold calculate_symptom_signal_strength
  norm_num [min_def]

/-- Evaluation of model consistency on an empty assessment dict. -/
theorem mc_empty_eval :
    calculate_model_consistency ⟨false, false, false, false, none⟩ = 3/5 := by
  unfold calculate_model_consistency
  norm_num

/-- Evaluation of RAG relevance on one hit with similarity -1. -/
theorem rr_neg_eval :
    calculate_rag_relevance (some [⟨some (-1), none, none, none, none, none, none⟩]) = -1 := by
  have hsims : (([⟨some (-1), none, none, none, none, none, none⟩] : List RagHit).take 3).filterMap
      extract_similarity = [-1] := rfl
  unfold calculate_rag_relevance
  dsimp only
  rw [hsims]
  norm_num [min_def]

/-- Evaluation of the confidence body at the minimal request with the
negative-similarity hit. -/
theorem body_neg_eval :
    confidence_body ⟨⟨["headache"], none, none⟩, ⟨30, none⟩, none, none⟩
      ⟨false, false, false, false, none⟩
      (some [⟨some (-1), none, none, none, none, none, none⟩]) none
      = .ok ⟨1/5, 41/100, -1, 7/10, 3/5, 17/400, "low"⟩ := by
  have haa : calculate_agent_agreement ⟨false, false, false, false, none⟩ none = .ok (7/10) := rfl
  unfold confidence_body
  rw [haa]
  dsimp only
  rw [dc_headache_eval, ss_headache_eval, rr_neg_eval, mc_empty_eval]
  simp only [Except.ok.injEq, ConfidenceBreakdownData.mk.injEq]
  norm_num [confidence_level_of]

/-- C4 counterexample: a retrieval hit with relevance value -1 drives
`rag_relevance` (a subscore of the returned breakdown) below 0. -/
theorem c4_counterexample :
    (calculate_confidence_score
      ⟨⟨["headache"], none, none⟩, ⟨30, none⟩, none, none⟩
      ⟨false, false, false, false, none⟩
      (some [⟨some (-1), none, none, none, none, none, none⟩]) none).rag_relevance < 0 := by
  rw [calculate_confidence_score_ok _ _ _ _ _ body_neg_eval]
  norm_num

/-- Evaluation of the confidence body at the minimal request with no
retrieval results. -/
theorem body_headache_eval :
    confidence_body ⟨⟨["headache"], none, none⟩, ⟨30, none⟩, none, none⟩
      ⟨false, false, false, false, none⟩ none none
      = .ok ⟨1/5, 41/100, 1/2, 7/10, 3/5, 167/400, "low"⟩ := by
  have haa : calculate_agent_agreement ⟨false, false, false, false, none⟩ none = .ok (7/10) := rfl
  have hrr : calculate_rag_relevance none = 1/2 := rfl
  unfold confidence_body
  rw [haa]
  dsimp only
  rw [dc_headache_eval, ss_headache_eval, hrr, mc_empty_eval]
  simp only [Except.ok.injEq, ConfidenceBreakdownData.mk.injEq]
  norm_num [confidence_level_of]


/-- C5 (amended): on every successful (non-fallback) computation the level
is the pure threshold function of the overall score, with the documented
cutoffs; the four boundary data points of the spec hold. -/
theorem c5_level_thresholds :
    (∀ (request : HealthAssessmentRequest) (assessment_data : AssessmentData)
       (rag_results : Option (List RagHit))
       (emergency_check : Option (List (String × String)))
       (b : ConfidenceBreakdownData),
      confidence_body request assessment_data rag_results emergency_check = .ok b →
        b.level = confidence_level_of b.overall_score) ∧
    confidence_level_of (8/10) = "high" ∧
    confidence_level_of (79999/100000) = "medium" ∧
    confidence_level_of (6/10) = "medium" ∧
    confidence_level_of (59999/100000) = "low" := by
  refine ⟨?_, ?_, ?_, ?_, ?_⟩
  · intro request assessment_data rag_results emergency_check b hb
    unfold confidence_body at hb
    rcases haa : calculate_agent_agreement assessment_data emergency_check with e | aa
    · rw [haa] at hb
      exact (Except.noConfusion hb)
    · rw [haa] at hb
      dsimp only at hb
      injection hb with hb
      subst hb
      rfl
  · norm_num [confidence_level_of]
  · norm_num [confidence_level_of]
  · norm_num [confidence_level_of]
  · norm_num [confidence_level_of]

/-- Witness for C5, applying the threshold property to the breakdown
computed at a concrete minimal input. -/
theorem c5_level_thresholds_witness :
    (ConfidenceBreakdownData.mk (1/5) (41/100) (1/2) (7/10) (3/5) (167/400) "low").level
      = confidence_level_of (167/400) :=
  c5_level_thresholds.1 ⟨⟨["headache"], none, none⟩, ⟨30, none⟩, none, none⟩
    ⟨false, false, false, false, none⟩ none none _ body_headache_eval

/-- C5 counterexample: an input whose agreement subscore computation fails
returns the fallback breakdown, whose overall score is below 0.60 while
its level is "medium", not "low". -/
theorem c5_counterexample :
    (calculate_confidence_score ⟨⟨["headache"], none, none⟩, ⟨30, none⟩, none, none⟩
        ⟨false, false, false, false, some (.dict (some (.pint 5)))⟩
        none (some [("urgency_level", "emergency")])).overall_score < 6/10 ∧
    (calculate_confidence_score ⟨⟨["headache"], none, none⟩, ⟨30, none⟩, none, none⟩
        ⟨false, false, false, false, some (.dict (some (.pint 5)))⟩
        none (some [("urgency_level", "emergency")])).level = "medium" := by
  have herr : confidence_body ⟨⟨["headache"], none, none⟩, ⟨30, none⟩, none, none⟩
      ⟨false, false, false, false, some (.dict (some (.pint 5)))⟩
      none (some [("urgency_level", "emergency")]) = .error () := rfl
  rw [calculate_confidence_score_error _ _ _ _ _ herr]
  exact ⟨by norm_num [fallback_breakdown], rfl⟩

/-- C8: the confidence computation never propagates a failure: when the
body fails it returns exactly the all-0.5 "medium" fallback breakdown,
and when the body succeeds it returns the body result. -/
theorem c8_fallback_on_internal_failure (request : HealthAssessmentRequest)
    (assessment_data : AssessmentData) (rag_results : Option (List RagHit))
    (emergency_check : Option (List (String × String))) :
    (∀ e, confidence_body request assessment_data rag_results emergency_check = .error e →
      calculate_confidence_score request assessment_data rag_results emergency_check =
        { data_completeness := 1/2, symptom_signal_strength := 1/2, rag_relevance := 1/2,
          agent_agreement := 1/2, model_consistency := 1/2, overall_score := 1/2,
          level := "medium" }) ∧
    (∀ b, confidence_body request assessment_data rag_results emergency_check = .ok b →
      calculate_confidence_score request assessment_data rag_results emergency_check = b) := by
  constructor
  · intro e he
    rw [calculate_confidence_score_error request assessment_data rag_results emergency_check e he]
    rfl
  · intro b hb
    exact calculate_confidence_score_ok request assessment_data rag_results emergency_check b hb

/-- Witness for C8: a concrete input whose agreement computation raises
(a non-sized `red_flags` value under an emergency urgency) returns the
fallback breakdown. -/
theorem c8_fallback_on_internal_failure_witness :
    calculate_confidence_score ⟨⟨["fever"], none, none⟩, ⟨40, none⟩, none, none⟩
      ⟨true, true, true, true, some (.dict (some (.pint 7)))⟩
      none (some [("urgency_level", "emergency")]) =
      { data_completeness := 1/2, symptom_signal_strength := 1/2, rag_relevance := 1/2,
        agent_agreement := 1/2, model_consistency := 1/2, overall_score := 1/2,
        level := "medium" } :=
  (c8_fallback_on_internal_failure ⟨⟨["fever"], none, none⟩, ⟨40, none⟩, none, none⟩
    ⟨true, true, true, true, some (.dict (some (.pint 7)))⟩
    none (some [("urgency_level", "emergency")])).1 () rfl


/-- Witness for C9 at six concrete symptoms. -/
theorem c9_evidence_cap_witness :
    generate_evidence_map ["a", "b", "c", "d", "e", "f"] [] "x" =
      ((["a", "b", "c", "d", "e", "f"].take 5).map (fun s =>
        { symptom := s
          supporting_sources := ["General medical knowledge"]
          confidence_contribution := 1/6 })) ∧
    (generate_evidence_map ["a", "b", "c", "d", "e", "f"] [] "x").length = 5 :=
  c9_evidence_cap.1 ["a", "b", "c", "d", "e", "f"] "x" rfl

end CCEE
